import Mathlib

/- Verification development for `skimage/measure/_marching_cubes_lewiner.py`
   (scikit-image 0.24.0 variant).

   Shallow embedding conventions:
   * scalar samples (numpy float32/float64) are modelled as rationals `ℚ`
     (the wrapper only compares, averages and multiplies them; float
     quantisation from `np.ascontiguousarray(volume, np.float32)` is not
     modelled);
   * `(V, 3)` numpy arrays are lists of triples, `(F,)` flat index arrays are
     lists of naturals;
   * Python exceptions are an explicit `PyErr` error type and fallible code
     returns `Except PyErr _`;
   * the compiled Cython kernel `_marching_cubes_lewiner_cy.marching_cubes`
     is not part of the sources, so it is a function parameter `func` of the
     embedded wrapper (the source also obtains it as a bare `func`,
     line 199);
   * Python keyword-argument binding for the internal call
     `marching_cubes -> _marching_cubes_lewiner` is modelled explicitly,
     because the call at lines 134-142 passes `single_mesh=...` while the
     callee signature at lines 156-157 has no such parameter: in Python this
     raises `TypeError` at the call site, before the callee body runs. -/

/-- Python exceptions raised (or raisable) by the wrapper module. -/
inductive PyErr where
  | typeError (msg : String)
  | valueError (msg : String)
  | runtimeError (msg : String)
  | notImplementedError (msg : String)
  | unboundLocalError (msg : String)
deriving DecidableEq

/-- A row of a `(V, 3)` float array. -/
abbrev Vec3 := ℚ × ℚ × ℚ

/-- A row of an `(F, 3)` integer index array. -/
abbrev Tri := ℕ × ℕ × ℕ

/-- A 3-D numpy volume: its shape `(M, N, P)` and its flattened samples.
The `isinstance(volume, np.ndarray) or volume.ndim != 3` check of line 164
is absorbed by this type (a `Volume` is always a 3-D array). -/
structure Volume where
  shape : ℕ × ℕ × ℕ
  data : List ℚ
deriving DecidableEq

/-- A boolean mask array; the wrapper only inspects its shape (line 195)
and otherwise forwards it untouched to the kernel. -/
structure Mask where
  shape : ℕ × ℕ × ℕ
deriving DecidableEq

/-- The four arrays returned by the Cython kernel: `(V, 3)` vertices, a flat
faces index array (reshaped to `(-1, 3)` by the wrapper at line 212),
`(V, 3)` normals and `(V,)` values. -/
structure KernelOut where
  vertices : List Vec3
  faces : List ℕ
  normals : List Vec3
  values : List ℚ
deriving DecidableEq

/-- The `(verts, faces, normals, values)` tuple returned by the wrapper. -/
structure MCResult where
  vertices : List Vec3
  faces : List Tri
  normals : List Vec3
  values : List ℚ
deriving DecidableEq

/-- `EDGETORELATIVEPOSX` constant table, source lines 244. -/
def EDGETORELATIVEPOSX : List (List ℤ) :=
  [[0,1],[1,1],[1,0],[0,0], [0,1],[1,1],[1,0],[0,0], [0,0],[1,1],[1,1],[0,0]]

/-- `EDGETORELATIVEPOSY` constant table, source line 245. -/
def EDGETORELATIVEPOSY : List (List ℤ) :=
  [[0,0],[0,1],[1,1],[1,0], [0,0],[0,1],[1,1],[1,0], [0,0],[0,0],[1,1],[1,1]]

/-- `EDGETORELATIVEPOSZ` constant table, source line 246. -/
def EDGETORELATIVEPOSZ : List (List ℤ) :=
  [[0,0],[0,0],[0,0],[0,0], [1,1],[1,1],[1,1],[1,1], [0,1],[0,1],[0,1],[0,1]]

/-- Modelled from the spec: `_marching_cubes_lewiner_cy.LutProvider` is a
compiled class and `_marching_cubes_lewiner_luts` (the 48 base64-packed
constant tables fed through `_to_array`) is a module, neither of which is
under the excerpted sources.  The provider is represented here by the three
in-source edge tables it receives as its first arguments (lines 254-255);
the remaining packed-table arguments play no role in any claim about the
wrapper. -/
structure LutProvider where
  edgeToRelativePosX : List (List ℤ)
  edgeToRelativePosY : List (List ℤ)
  edgeToRelativePosZ : List (List ℤ)
deriving DecidableEq

/-- The `LutProvider(...)` construction performed on first use at
lines 254-275, represented by its in-source table arguments. -/
def buildTheLuts : LutProvider :=
  { edgeToRelativePosX := EDGETORELATIVEPOSX
    edgeToRelativePosY := EDGETORELATIVEPOSY
    edgeToRelativePosZ := EDGETORELATIVEPOSZ }

/-- The module-level state inspected by `_get_mc_luts`: whether the
attribute `THE_LUTS` is set on the `mcluts` module (`hasattr`, line 252). -/
structure LutState where
  THE_LUTS : Option LutProvider
deriving DecidableEq

/-- `_get_mc_luts`, source lines 249-277: build the lut bundle on first use,
return the stored one afterwards.  The mutable module attribute is passed
and returned as explicit state. -/
def _get_mc_luts (st : LutState) : LutState × LutProvider :=
  match st.THE_LUTS with
  | none => ({ THE_LUTS := some buildTheLuts }, buildTheLuts)
  | some l => (st, l)

/-- Type of the compiled kernel `_marching_cubes_lewiner_cy.marching_cubes`
(not under the sources): argument order as at lines 200-202 —
`(volume, level, L, step_size, use_classic, mask, single_mesh)`. -/
abbrev KernelFn := Volume → ℚ → LutProvider → ℤ → Bool → Option Mask → Bool → KernelOut

/-- Type of `_marching_cubes_classic` (imported from another module, not
under the sources): `(volume, level, spacing, gradient_direction)`. -/
abbrev ClassicFn := Volume → Option ℚ → List ℚ → String → Except PyErr MCResult

/-- `volume.min()`. -/
def vmin (v : Volume) : ℚ := v.data.foldr min (v.data.headD 0)

/-- `volume.max()`. -/
def vmax (v : Volume) : ℚ := v.data.foldr max (v.data.headD 0)

/-- `np.fliplr` on one row of a `(V, 3)` float array. -/
def rev3 (p : Vec3) : Vec3 := (p.2.2, p.2.1, p.1)

/-- `np.fliplr` on one row of an `(F, 3)` index array. -/
def revTri (t : Tri) : Tri := (t.2.2, t.2.1, t.1)

/-- `faces.shape = -1, 3` (line 212): regroup the flat kernel faces array
into index triples. -/
def chunk3 : List ℕ → List Tri
  | a :: b :: c :: rest => (a, b, c) :: chunk3 rest
  | _ => []

/-- `vertices * np.r_[spacing]` (line 221): componentwise scale of one
vertex row by the 3-element spacing vector. -/
def mulSpacing (spacing : List ℚ) (p : Vec3) : Vec3 :=
  (p.1 * spacing.getD 0 1, p.2.1 * spacing.getD 1 1, p.2.2 * spacing.getD 2 1)

/-- A triangle whose three vertex indices are pairwise distinct
(i.e. a non-degenerate triangle). -/
def triDistinct (t : Tri) : Bool :=
  t.1 != t.2.1 && t.1 != t.2.2 && t.2.1 != t.2.2

/-- Modelled from the spec:
`_marching_cubes_lewiner_cy.remove_degenerate_faces` is compiled code not
under the sources.  Spec section 4.8: remove any triangle whose three vertex
indices are not pairwise distinct, then remove any vertex no longer
referenced by a remaining triangle, and re-number the surviving triangle
indices to a dense contiguous range; deterministic, order-preserving among
survivors. -/
def remove_degenerate_faces (vertices : List Vec3) (faces : List Tri)
    (normals : List Vec3) (values : List ℚ) : MCResult :=
  let survivors := faces.filter triDistinct
  let used := (List.range vertices.length).filter
    (fun i => survivors.any (fun t => t.1 == i || t.2.1 == i || t.2.2 == i))
  { vertices := used.map (fun i => vertices.getD i (0, 0, 0))
    faces := survivors.map (fun t => (used.indexOf t.1, used.indexOf t.2.1, used.indexOf t.2.2))
    normals := used.map (fun i => normals.getD i (0, 0, 0))
    values := used.map (fun i => values.getD i 0) }

/-- Lines 172-178: default the level to the midrange when absent, otherwise
reject a level outside `[volume.min(), volume.max()]`. -/
def levelCheck (volume : Volume) (level : Option ℚ) : Except PyErr ℚ :=
  match level with
  | none => .ok ((vmin volume + vmax volume) / 2)
  | some l =>
    if l < vmin volume ∨ l > vmax volume then
      .error (.valueError "Surface level must be within volume data range.")
    else .ok l

/-- Lines 193-196: a supplied mask must have the shape of the volume. -/
def maskCheck (volume : Volume) (mask : Option Mask) : Except PyErr Unit :=
  match mask with
  | none => .ok ()
  | some mk =>
    if mk.shape = volume.shape then .ok ()
    else .error (.valueError "volume and mask must have the same shape.")

/-- Lines 198-227 of `_marching_cubes_lewiner`: invoke the kernel, raise on
an empty vertex array, flip vertex/normal columns, reshape faces and apply
the winding convention chosen by `gradient_direction`, post-scale by
`spacing`, and optionally strip degenerate faces. -/
def mcApply (func : KernelFn) (L : LutProvider) (volume : Volume) (lvl : ℚ)
    (spacing : List ℚ) (gradient_direction : String) (step_size : ℤ)
    (allow_degenerate : Bool) (use_classic : Bool) (mask : Option Mask)
    (single_mesh : Bool) : Except PyErr MCResult :=
  let k := func volume lvl L step_size use_classic mask single_mesh
  if k.vertices = [] then
    .error (.runtimeError "No surface found at the given iso value.")
  else
    let vertices := k.vertices.map rev3
    let normals := k.normals.map rev3
    let faces := chunk3 k.faces
    let facesE : Except PyErr (List Tri) :=
      if gradient_direction = "descent" then .ok (faces.map revTri)
      else if gradient_direction = "ascent" then .ok faces
      else .error (.valueError ("Incorrect input " ++ gradient_direction ++
        " in gradient_direction, see docstring."))
    match facesE with
    | .error e => .error e
    | .ok faces2 =>
      let vertices2 := if spacing = [1, 1, 1] then vertices
        else vertices.map (mulSpacing spacing)
      if allow_degenerate then
        .ok { vertices := vertices2, faces := faces2, normals := normals,
              values := k.values }
      else
        .ok (remove_degenerate_faces vertices2 faces2 normals k.values)

/-- `_marching_cubes_lewiner`, source lines 156-227.  Its signature
(lines 156-157) takes `(volume, level, spacing, gradient_direction,
step_size, allow_degenerate, use_classic, mask)` — it has NO `single_mesh`
parameter, yet its body reads and reassigns `single_mesh` at line 189
(`single_mesh = bool(single_mesh)`).  In Python that name is therefore an
uninitialised local: executing the body with no binding for it raises
`UnboundLocalError` at line 189.  The body is embedded with that
environment made explicit as `single_mesh_env : Option Bool` (`none` — the
binding a direct call produces; `some b` — the binding its call sites at
lines 134-142 intend to establish).  `L`, obtained from `_get_mc_luts()` at
line 191, and the kernel `func` are parameters. -/
def _marching_cubes_lewiner (func : KernelFn) (L : LutProvider)
    (volume : Volume) (level : Option ℚ) (spacing : List ℚ)
    (gradient_direction : String) (step_size : ℤ) (allow_degenerate : Bool)
    (use_classic : Bool) (mask : Option Mask)
    (single_mesh_env : Option Bool) : Except PyErr MCResult :=
  if volume.shape.1 < 2 ∨ volume.shape.2.1 < 2 ∨ volume.shape.2.2 < 2 then
    .error (.valueError "Input array must be at least 2x2x2.")
  else
    match levelCheck volume level with
    | .error e => .error e
    | .ok lvl =>
      if spacing.length ≠ 3 then
        .error (.valueError "spacing must consist of three floats.")
      else if step_size < 1 then
        .error (.valueError "step_size must be at least one.")
      else
        match single_mesh_env with
        | none =>
          .error (.unboundLocalError
            "local variable single_mesh referenced before assignment")
        | some single_mesh =>
          match maskCheck volume mask with
          | .error e => .error e
          | .ok _ =>
            mcApply func L volume lvl spacing gradient_direction step_size
              allow_degenerate use_classic mask single_mesh

/-- The parameter names of `_marching_cubes_lewiner` (lines 156-157). -/
def lewiner_param_names : List String :=
  ["volume", "level", "spacing", "gradient_direction", "step_size",
   "allow_degenerate", "use_classic", "mask"]

/-- The keyword arguments `marching_cubes` passes to
`_marching_cubes_lewiner` at lines 134-142. -/
def lewiner_call_kwargs : List String := ["use_classic", "mask", "single_mesh"]

/-- Python keyword binding for the internal call: every keyword passed must
name a parameter of the callee, else the call raises `TypeError` before the
callee body runs.  Here `single_mesh` names no parameter, so this is
`false`. -/
def lewiner_call_binds : Bool :=
  lewiner_call_kwargs.all (fun kw => lewiner_param_names.contains kw)

/-- `marching_cubes`, source lines 10-153: dispatch on `method`.  For
`lewiner` and `lorensen` the internal call must first bind its keyword
arguments (`lewiner_call_binds`); since `single_mesh` is not a parameter of
`_marching_cubes_lewiner`, the bound branch is unreachable and the call
raises `TypeError`.  `func` stands for the compiled kernel and `classic`
for `_marching_cubes_classic` (both external to the sources); `L` is the
process-wide lut bundle. -/
def marching_cubes (func : KernelFn) (classic : ClassicFn) (L : LutProvider)
    (volume : Volume) (level : Option ℚ) (spacing : List ℚ)
    (gradient_direction : String) (step_size : ℤ) (allow_degenerate : Bool)
    (method : String) (mask : Option Mask) (single_mesh : Bool) :
    Except PyErr MCResult :=
  if method = "lewiner" then
    if lewiner_call_binds then
      _marching_cubes_lewiner func L volume level spacing gradient_direction
        step_size allow_degenerate false mask (some single_mesh)
    else
      .error (.typeError
        "_marching_cubes_lewiner() got an unexpected keyword argument single_mesh")
  else if method = "lorensen" then
    if lewiner_call_binds then
      _marching_cubes_lewiner func L volume level spacing gradient_direction
        step_size allow_degenerate true mask (some single_mesh)
    else
      .error (.typeError
        "_marching_cubes_lewiner() got an unexpected keyword argument single_mesh")
  else if method = "_lorensen" then
    match mask with
    | some _ =>
      .error (.notImplementedError
        "Parameter mask is not implemented for method _lorensen and will be ignored.")
    | none => classic volume level spacing gradient_direction
  else
    .error (.valueError
      "method should be one of lewiner, lorensen or _lorensen.")

/-- Shape agreement between an optional mask and the volume, as a boolean
(used to state validation-passing hypotheses). -/
def maskShapeOk (mask : Option Mask) (vol : Volume) : Bool :=
  match mask with
  | none => true
  | some mk => decide (mk.shape = vol.shape)

/-- The arguments pass every validation check of `_marching_cubes_lewiner`
that precedes the kernel invocation (lines 163-196). -/
abbrev ValidArgs (vol : Volume) (lvl : ℚ) (spacing : List ℚ)
    (step_size : ℤ) (mask : Option Mask) : Prop :=
  2 ≤ vol.shape.1 ∧ 2 ≤ vol.shape.2.1 ∧ 2 ≤ vol.shape.2.2 ∧
  vmin vol ≤ lvl ∧ lvl ≤ vmax vol ∧ spacing.length = 3 ∧
  1 ≤ step_size ∧ maskShapeOk mask vol = true

/-- The two endpoint coordinates described by row `e` of the three edge
tables: endpoint `i` of cube edge `e` is
`(EDGETORELATIVEPOSX[e][i], EDGETORELATIVEPOSY[e][i], EDGETORELATIVEPOSZ[e][i])`. -/
def edgeEndpoint (e i : ℕ) : ℤ × ℤ × ℤ :=
  ((EDGETORELATIVEPOSX.getD e []).getD i 0,
   (EDGETORELATIVEPOSY.getD e []).getD i 0,
   (EDGETORELATIVEPOSZ.getD e []).getD i 0)

/-- A concrete valid 2x2x2 volume with sample range `[0, 2]`. -/
def vol0 : Volume := { shape := (2, 2, 2), data := [0, 0, 0, 0, 0, 0, 0, 2] }

/-- A concrete mask of the same shape as `vol0`. -/
def mask0 : Mask := { shape := (2, 2, 2) }

/-- A kernel instance that finds no surface (empty output arrays). -/
def emptyKernel : KernelFn := fun _ _ _ _ _ _ _ =>
  { vertices := [], faces := [], normals := [], values := [] }

/-- A kernel instance that produces one proper triangle. -/
def oneTriKernel : KernelFn := fun _ _ _ _ _ _ _ =>
  { vertices := [(0, 0, 0), (1, 0, 0), (0, 1, 0)], faces := [0, 1, 2],
    normals := [(0, 0, 1), (0, 0, 1), (0, 0, 1)], values := [1, 1, 1] }

/-- A kernel instance whose only triangle is degenerate (all three indices
equal), exercising the degenerate-face filter. -/
def degenKernel : KernelFn := fun _ _ _ _ _ _ _ =>
  { vertices := [(0, 0, 0)], faces := [0, 0, 0],
    normals := [(0, 0, 1)], values := [1] }

/-- An arbitrary instance for the `classic` parameter; no theorem below
ever reaches the classic-algorithm branch with it. -/
def classicK : ClassicFn := fun _ _ _ _ =>
  .error (.runtimeError "classic algorithm not modelled")

/-- Under validation-passing arguments and with a binding supplied for the
free body variable `single_mesh`, `_marching_cubes_lewiner` reduces to its
kernel-invocation-and-postprocessing tail (lines 198-227). -/
theorem lewiner_valid_reduces (func : KernelFn) (L : LutProvider)
    (vol : Volume) (lvl : ℚ) (spacing : List ℚ) (gd : String) (st : ℤ)
    (ad uc b : Bool) (mask : Option Mask)
    (hv : ValidArgs vol lvl spacing st mask) :
    _marching_cubes_lewiner func L vol (some lvl) spacing gd st ad uc mask (some b) =
      mcApply func L vol lvl spacing gd st ad uc mask b := by
  obtain ⟨h1, h2, h3, h4, h5, h6, h7, h8⟩ := hv
  have hshape : ¬ (vol.shape.1 < 2 ∨ vol.shape.2.1 < 2 ∨ vol.shape.2.2 < 2) := by
    push_neg
    exact ⟨h1, h2, h3⟩
  have hlvlc : ¬ (lvl < vmin vol ∨ lvl > vmax vol) := by
    push_neg
    exact ⟨h4, h5⟩
  have hlvl : levelCheck vol (some lvl) = .ok lvl := by
    simp only [levelCheck]
    rw [if_neg hlvlc]
  have hmask : maskCheck vol mask = .ok () := by
    cases mask with
    | none => rfl
    | some mk =>
      have hsh : mk.shape = vol.shape := by
        unfold maskShapeOk at h8
        exact of_decide_eq_true h8
      simp only [maskCheck]
      rw [if_pos hsh]
  unfold _marching_cubes_lewiner
  rw [if_neg hshape]
  simp only [hlvl, hmask, if_neg (not_not_intro h6), if_neg (not_lt.mpr h7)]

/-- When the kernel produces no vertices, the tail raises the
no-surface-found runtime error (lines 204-205). -/
theorem mcApply_empty (func : KernelFn) (L : LutProvider) (vol : Volume)
    (lvl : ℚ) (spacing : List ℚ) (gd : String) (st : ℤ) (ad uc b : Bool)
    (mask : Option Mask)
    (h : (func vol lvl L st uc mask b).vertices = []) :
    mcApply func L vol lvl spacing gd st ad uc mask b =
      .error (.runtimeError "No surface found at the given iso value.") := by
  simp only [mcApply]
  rw [if_pos h]

/-- When the kernel produces vertices and `gradient_direction` is neither
`descent` nor `ascent`, the tail raises the selector `ValueError`
(lines 217-219), i.e. only after the kernel invocation. -/
theorem mcApply_bad_gd (func : KernelFn) (L : LutProvider) (vol : Volume)
    (lvl : ℚ) (spacing : List ℚ) (gd : String) (st : ℤ) (ad uc b : Bool)
    (mask : Option Mask)
    (hne : (func vol lvl L st uc mask b).vertices ≠ [])
    (hd : gd ≠ "descent") (ha : gd ≠ "ascent") :
    mcApply func L vol lvl spacing gd st ad uc mask b =
      .error (.valueError ("Incorrect input " ++ gd ++
        " in gradient_direction, see docstring.")) := by
  simp only [mcApply]
  rw [if_neg hne, if_neg hd, if_neg ha]

/-- Reversing an index triple of a triangle preserves (non-)degeneracy. -/
theorem triDistinct_revTri (t : Tri) : triDistinct (revTri t) = triDistinct t := by
  obtain ⟨a, b, c⟩ := t
  simp only [triDistinct, revTri]
  rw [Bool.eq_iff_iff]
  simp only [Bool.and_eq_true, bne_iff_ne]
  constructor
  · rintro ⟨⟨p, q⟩, r⟩
    exact ⟨⟨Ne.symm r, Ne.symm q⟩, Ne.symm p⟩
  · rintro ⟨⟨p, q⟩, r⟩
    exact ⟨⟨Ne.symm r, Ne.symm q⟩, Ne.symm p⟩

/-- A list of triangles that are all degenerate has no survivors under the
non-degeneracy filter. -/
theorem filter_triDistinct_eq_nil (fs : List Tri)
    (h : fs.all (fun t => ! triDistinct t) = true) :
    fs.filter triDistinct = [] := by
  induction fs with
  | nil => rfl
  | cons a l ih =>
    rw [List.all_cons, Bool.and_eq_true] at h
    obtain ⟨ha, hl⟩ := h
    have ha2 : triDistinct a = false := by
      cases hh : triDistinct a
      · rfl
      · rw [hh] at ha
        exact absurd ha (by decide)
    rw [List.filter_cons_of_neg (by simp [ha2]), ih hl]

/-- Filtering an all-degenerate mesh leaves nothing: no triangles survive,
so no vertex stays referenced and every output array is empty. -/
theorem remove_degenerate_faces_all_degenerate (vs : List Vec3) (fs : List Tri)
    (ns : List Vec3) (cs : List ℚ) (h : fs.filter triDistinct = []) :
    remove_degenerate_faces vs fs ns cs =
      { vertices := [], faces := [], normals := [], values := [] } := by
  simp [remove_degenerate_faces, h]

/-- Claim C1 (code bug): the spec says `single_mesh` is forwarded to the
core kernel, but the call sites at lines 134-142 pass `single_mesh=...` to
`_marching_cubes_lewiner`, whose signature (lines 156-157) has no such
parameter.  Every call with method `lewiner` or `lorensen` therefore raises
`TypeError` at the internal call, for any `single_mesh` value and for every
possible kernel — the kernel is never invoked (the result does not depend
on `func`), so the flag never reaches it. -/
theorem c1_single_mesh_never_reaches_kernel :
    ∀ (func : KernelFn) (classic : ClassicFn) (sm : Bool),
      marching_cubes func classic buildTheLuts vol0 (some 1) [1, 1, 1]
          "descent" 1 true "lewiner" none sm =
        .error (.typeError
          "_marching_cubes_lewiner() got an unexpected keyword argument single_mesh") ∧
      marching_cubes func classic buildTheLuts vol0 (some 1) [1, 1, 1]
          "descent" 1 true "lorensen" none sm =
        .error (.typeError
          "_marching_cubes_lewiner() got an unexpected keyword argument single_mesh")
  := fun _ _ _ => ⟨rfl, rfl⟩

/-- Claim C2 (code bug): with a kernel that finds no surface (empty vertex
array), a `lewiner` or `lorensen` call never reports the documented
no-surface `RuntimeError` of lines 204-205 — it fails earlier with the
`single_mesh` `TypeError` of C1, so the no-surface condition is
unreachable from `marching_cubes`. -/
theorem c2_no_surface_error_unreachable :
    marching_cubes emptyKernel classicK buildTheLuts vol0 (some 1) [1, 1, 1]
        "descent" 1 true "lewiner" none false =
      .error (.typeError
        "_marching_cubes_lewiner() got an unexpected keyword argument single_mesh") ∧
    marching_cubes emptyKernel classicK buildTheLuts vol0 (some 1) [1, 1, 1]
        "descent" 1 true "lorensen" none false =
      .error (.typeError
        "_marching_cubes_lewiner() got an unexpected keyword argument single_mesh") :=
  ⟨rfl, rfl⟩

/-- Claim C3 (code bug): for a level outside `[volume.min(), volume.max()]`
(here level 5 against `vol0`, whose range is `[0, 2]`), the documented
range-validation `ValueError` of lines 177-178 is never raised: the call
dies first with the `single_mesh` `TypeError`.  The kernel is indeed never
invoked (the result is the same for every `func`), but the error is not the
range-validation failure. -/
theorem c3_range_validation_preempted :
    ∀ (func : KernelFn) (classic : ClassicFn) (sm : Bool),
      marching_cubes func classic buildTheLuts vol0 (some 5) [1, 1, 1]
          "descent" 1 true "lewiner" none sm =
        .error (.typeError
          "_marching_cubes_lewiner() got an unexpected keyword argument single_mesh") ∧
      marching_cubes func classic buildTheLuts vol0 (some 5) [1, 1, 1]
          "descent" 1 true "lorensen" none sm =
        .error (.typeError
          "_marching_cubes_lewiner() got an unexpected keyword argument single_mesh")
  := fun _ _ _ => ⟨rfl, rfl⟩

/-- Claim C4, counterexample: a `lewiner` call with the unsupported
gradient-direction selector `foo` does not report the selector validation
failure (the `ValueError` of lines 217-219) at all, let alone before the
kernel: it raises the `single_mesh` `TypeError`, which is a different
error. -/
theorem c4_selector_failure_not_reported_cx :
    marching_cubes emptyKernel classicK buildTheLuts vol0 (some 1) [1, 1, 1]
        "foo" 1 true "lewiner" none false =
      .error (.typeError
        "_marching_cubes_lewiner() got an unexpected keyword argument single_mesh") ∧
    (Except.error (PyErr.typeError
        "_marching_cubes_lewiner() got an unexpected keyword argument single_mesh") ≠
      (Except.error (PyErr.valueError
        "Incorrect input foo in gradient_direction, see docstring.") :
        Except PyErr MCResult)) :=
  ⟨rfl, by
    intro h
    rw [Except.error.injEq] at h
    exact absurd h (by decide)⟩

/-- Claim C4 (amended): in the body of `_marching_cubes_lewiner` (executed
with the `single_mesh` binding its callers intend), an unsupported
`gradient_direction` is examined only at lines 213-219, after the kernel
call of lines 199-202: with validation-passing arguments, if the kernel
returns no vertices the no-surface `RuntimeError` is raised instead, and
only if the kernel returned a nonempty vertex array is the selector
`ValueError` raised — never before the kernel is invoked. -/
theorem c4_selector_checked_only_after_kernel (func : KernelFn)
    (L : LutProvider) (vol : Volume) (lvl : ℚ) (spacing : List ℚ)
    (gd : String) (st : ℤ) (ad uc b : Bool) (mask : Option Mask)
    (hv : ValidArgs vol lvl spacing st mask)
    (hd : gd ≠ "descent") (ha : gd ≠ "ascent") :
    ((func vol lvl L st uc mask b).vertices = [] →
      _marching_cubes_lewiner func L vol (some lvl) spacing gd st ad uc mask (some b) =
        .error (.runtimeError "No surface found at the given iso value.")) ∧
    ((func vol lvl L st uc mask b).vertices ≠ [] →
      _marching_cubes_lewiner func L vol (some lvl) spacing gd st ad uc mask (some b) =
        .error (.valueError ("Incorrect input " ++ gd ++
          " in gradient_direction, see docstring."))) := by
  constructor
  · intro hnil
    rw [lewiner_valid_reduces func L vol lvl spacing gd st ad uc b mask hv]
    exact mcApply_empty func L vol lvl spacing gd st ad uc b mask hnil
  · intro hne
    rw [lewiner_valid_reduces func L vol lvl spacing gd st ad uc b mask hv]
    exact mcApply_bad_gd func L vol lvl spacing gd st ad uc b mask hne hd ha

/-- Claim C4, witness for the amended theorem at a concrete input. -/
theorem c4_selector_checked_only_after_kernel_witness :
    ValidArgs vol0 1 [1, 1, 1] 1 none ∧ "foo" ≠ "descent" ∧ "foo" ≠ "ascent" ∧
    (((emptyKernel vol0 1 buildTheLuts 1 false none false).vertices = [] →
      _marching_cubes_lewiner emptyKernel buildTheLuts vol0 (some 1) [1, 1, 1]
          "foo" 1 true false none (some false) =
        .error (.runtimeError "No surface found at the given iso value.")) ∧
     ((emptyKernel vol0 1 buildTheLuts 1 false none false).vertices ≠ [] →
      _marching_cubes_lewiner emptyKernel buildTheLuts vol0 (some 1) [1, 1, 1]
          "foo" 1 true false none (some false) =
        .error (.valueError ("Incorrect input " ++ "foo" ++
          " in gradient_direction, see docstring.")))) :=
  ⟨by decide, by decide, by decide,
    c4_selector_checked_only_after_kernel emptyKernel buildTheLuts vol0 1
      [1, 1, 1] "foo" 1 true false false none (by decide) (by decide) (by decide)⟩

/-- Claim C5 (code bug): the axis-reorder of vertices/normals (lines
207-209), the winding flip for `descent` (lines 213-216) and the unchanged
values array describe postprocessing at lines 207-219, but no `lewiner` or
`lorensen` call can ever reach it or return: even with a kernel producing a
proper one-triangle mesh, the call raises the `single_mesh` `TypeError`
first — under both selectors — so no successful call exists. -/
theorem c5_postprocessing_unreachable :
    marching_cubes oneTriKernel classicK buildTheLuts vol0 (some 1) [1, 1, 1]
        "descent" 1 true "lewiner" none false =
      .error (.typeError
        "_marching_cubes_lewiner() got an unexpected keyword argument single_mesh") ∧
    marching_cubes oneTriKernel classicK buildTheLuts vol0 (some 1) [1, 1, 1]
        "ascent" 1 true "lorensen" none false =
      .error (.typeError
        "_marching_cubes_lewiner() got an unexpected keyword argument single_mesh") :=
  ⟨rfl, rfl⟩

/-- Claim C6 (code bug): the spacing post-scale (lines 220-221) likewise
belongs to postprocessing no call can reach: with a non-identity spacing
`(2, 3, 4)` and a kernel producing a proper mesh, the `lewiner` call still
raises the `single_mesh` `TypeError` and returns no scaled vertices. -/
theorem c6_spacing_scale_unreachable :
    marching_cubes oneTriKernel classicK buildTheLuts vol0 (some 1) [2, 3, 4]
        "descent" 1 true "lewiner" none false =
      .error (.typeError
        "_marching_cubes_lewiner() got an unexpected keyword argument single_mesh") ∧
    marching_cubes oneTriKernel classicK buildTheLuts vol0 (some 1) [2, 3, 4]
        "descent" 1 true "lorensen" none false =
      .error (.typeError
        "_marching_cubes_lewiner() got an unexpected keyword argument single_mesh") :=
  ⟨rfl, rfl⟩

/-- Claim C7 (code bug): with a mask supplied, method `_lorensen` is
rejected with `NotImplementedError` before any computation (the result is
independent of both the kernel and the classic algorithm), as the claim
says; but for method `lorensen` the mask is NOT accepted and forwarded to
the kernel — the call raises the `single_mesh` `TypeError` first (again for
every kernel), so the mask never reaches the kernel. -/
theorem c7_mask_policy :
    ∀ (func : KernelFn) (classic : ClassicFn) (sm : Bool),
      marching_cubes func classic buildTheLuts vol0 (some 1) [1, 1, 1]
          "descent" 1 true "_lorensen" (some mask0) sm =
        .error (.notImplementedError
          "Parameter mask is not implemented for method _lorensen and will be ignored.") ∧
      marching_cubes func classic buildTheLuts vol0 (some 1) [1, 1, 1]
          "descent" 1 true "lorensen" (some mask0) sm =
        .error (.typeError
          "_marching_cubes_lewiner() got an unexpected keyword argument single_mesh")
  := fun _ _ _ => ⟨rfl, rfl⟩

/-- Claim C8, counterexample: in the body of `_marching_cubes_lewiner`
(executed with the `single_mesh` binding its callers intend), a call with
`allow_degenerate = false` whose kernel mesh consists of one degenerate
triangle has every triangle removed by the filter — and the call returns
the four empty arrays silently (`.ok`), it does not surface the
no-surface-found error. -/
theorem c8_silent_empty_after_filter_cx :
    _marching_cubes_lewiner degenKernel buildTheLuts vol0 (some 1) [1, 1, 1]
        "descent" 1 false false none (some true) =
      .ok { vertices := [], faces := [], normals := [], values := [] } ∧
    ((Except.ok { vertices := [], faces := [], normals := [], values := [] } :
        Except PyErr MCResult) ≠
      Except.error (PyErr.runtimeError "No surface found at the given iso value.")) :=
  ⟨rfl, fun h => Except.noConfusion h⟩

/-- Claim C8 (amended): when `allow_degenerate = false` and the degenerate-
triangle filter eliminates every triangle of a nonempty kernel mesh, the
call returns the filtered result — four empty arrays — silently; the
no-surface-found error of lines 204-205 is raised only when the traversal
itself produced no vertices, and the result of the filter is never
re-checked (lines 223-227). -/
theorem c8_all_degenerate_returns_empty_silently (func : KernelFn)
    (L : LutProvider) (vol : Volume) (lvl : ℚ) (spacing : List ℚ)
    (gd : String) (st : ℤ) (uc b : Bool) (mask : Option Mask)
    (hv : ValidArgs vol lvl spacing st mask)
    (hgd : gd = "descent" ∨ gd = "ascent")
    (hne : (func vol lvl L st uc mask b).vertices ≠ [])
    (hdeg : (chunk3 (func vol lvl L st uc mask b).faces).all
      (fun t => ! triDistinct t) = true) :
    _marching_cubes_lewiner func L vol (some lvl) spacing gd st false uc mask (some b) =
      .ok { vertices := [], faces := [], normals := [], values := [] } := by
  rw [lewiner_valid_reduces func L vol lvl spacing gd st false uc b mask hv]
  simp only [mcApply]
  rw [if_neg hne]
  have hmap : ((chunk3 (func vol lvl L st uc mask b).faces).map revTri).all
      (fun t => ! triDistinct t) = true := by
    rw [List.all_map]
    refine Eq.trans ?_ hdeg
    congr 1
    funext t
    simp [Function.comp, triDistinct_revTri]
  rcases hgd with hgd | hgd <;> subst hgd
  · rw [if_pos rfl]
    simp only [Bool.false_eq_true, if_false]
    rw [remove_degenerate_faces_all_degenerate _ _ _ _
      (filter_triDistinct_eq_nil _ hmap)]
  · rw [if_neg (by decide), if_pos rfl]
    simp only [Bool.false_eq_true, if_false]
    rw [remove_degenerate_faces_all_degenerate _ _ _ _
      (filter_triDistinct_eq_nil _ hdeg)]

/-- Claim C8, witness for the amended theorem at a concrete input. -/
theorem c8_all_degenerate_returns_empty_silently_witness :
    ValidArgs vol0 1 [1, 1, 1] 1 none ∧
    ("descent" = "descent" ∨ "descent" = "ascent") ∧
    (degenKernel vol0 1 buildTheLuts 1 false none false).vertices ≠ [] ∧
    (chunk3 (degenKernel vol0 1 buildTheLuts 1 false none false).faces).all
      (fun t => ! triDistinct t) = true ∧
    _marching_cubes_lewiner degenKernel buildTheLuts vol0 (some 1) [1, 1, 1]
        "descent" 1 false false none (some false) =
      .ok { vertices := [], faces := [], normals := [], values := [] } :=
  ⟨by decide, Or.inl rfl, by decide, by decide,
    c8_all_degenerate_returns_empty_silently degenKernel buildTheLuts vol0 1
      [1, 1, 1] "descent" 1 false false none (by decide) (Or.inl rfl)
      (by decide) (by decide)⟩

/-- Claim C9 (confirmed): `_get_mc_luts` is a lazy once-only build: calling
it again on the state a first call produced returns exactly the first
result of the first call (same stored provider, unchanged state — no rebuild, no
mutation), and from the fresh state it constructs and stores the
`LutProvider` built from the constant tables. -/
theorem c9_luts_built_once_and_reused :
    (∀ st : LutState, _get_mc_luts (_get_mc_luts st).1 = _get_mc_luts st) ∧
    _get_mc_luts { THE_LUTS := none } =
      ({ THE_LUTS := some buildTheLuts }, buildTheLuts) := by
  constructor
  · intro st
    rcases st with ⟨_ | l⟩ <;> rfl
  · rfl

/-- Claim C10 (confirmed): the three edge tables each have 12 rows of 2
entries, every entry is 0 or 1, and for each of the 12 edges the two
endpoint coordinate triples differ in exactly one of the three coordinates:
every described cube edge is an axis-aligned unit edge of the unit cube. -/
theorem c10_edge_tables_describe_unit_edges :
    EDGETORELATIVEPOSX.length = 12 ∧ EDGETORELATIVEPOSY.length = 12 ∧
    EDGETORELATIVEPOSZ.length = 12 ∧
    ((EDGETORELATIVEPOSX ++ EDGETORELATIVEPOSY ++ EDGETORELATIVEPOSZ).all
      (fun row => row.length == 2 && row.all (fun v => v == 0 || v == 1))) = true ∧
    ((List.range 12).all (fun e =>
      ((decide ((edgeEndpoint e 0).1 ≠ (edgeEndpoint e 1).1)).toNat +
       (decide ((edgeEndpoint e 0).2.1 ≠ (edgeEndpoint e 1).2.1)).toNat +
       (decide ((edgeEndpoint e 0).2.2 ≠ (edgeEndpoint e 1).2.2)).toNat) == 1)) = true := by
  decide
